import Mathlib

/-!
# MLTreeMaker: image grids, combined images and tensor sizes

Shallow embedding of the state declared in `src/MLTreeMaker.h`
(class `MLTreeMaker`): the static grid tables, the image arrays, the
duplicate counters, the batching properties and the input tensor sizes.

A C array declaration `float m_PSB[16][4]` is embedded as a `Decl` that
records the element type and the list of dimensions in source order; a
scalar member is a `Decl` with no dimension.
-/

namespace MLTreeMaker

/-! ## Declarations -/

/-- Element types of the members embedded here. -/
inductive ElemType where
  | float
  | int
  deriving DecidableEq, Repr

/-- A data member: its element type and its array dimensions, outermost first
(`[]` for a scalar). -/
structure Decl where
  elemType : ElemType
  dims : List Nat
  deriving DecidableEq, Repr

/-- Number of elements stored by a member (1 for a scalar). -/
def Decl.numElements (d : Decl) : Nat := d.dims.prod

/-- Whether `idx` is an in-bounds subscript list for the member: one subscript per
dimension, each strictly below the extent of its dimension. -/
def Decl.validIndex (d : Decl) (idx : List Nat) : Bool :=
  idx.length == d.dims.length && (List.zip idx d.dims).all (fun p => decide (p.1 < p.2))

-- Images: eta x phi = 0.4 x 0.4   (MLTreeMaker.h, lines 287-294)
def m_PSB : Decl := ⟨.float, [16, 4]⟩
def m_EMB1 : Decl := ⟨.float, [128, 4]⟩
def m_EMB2 : Decl := ⟨.float, [16, 16]⟩
def m_EMB3 : Decl := ⟨.float, [8, 16]⟩
def m_TileBar0 : Decl := ⟨.float, [4, 4]⟩
def m_TileBar1 : Decl := ⟨.float, [4, 4]⟩
def m_TileBar2 : Decl := ⟨.float, [2, 4]⟩

-- Model inputs   (lines 296-298)
def m_EMB1_expand : Decl := ⟨.float, [128, 4, 1]⟩
def m_EMB23 : Decl := ⟨.float, [16, 16, 2]⟩
def m_Tiles : Decl := ⟨.float, [4, 4, 3]⟩

-- Duplicate counters   (lines 300-306): plain `int` members
def m_duplicate_PSB : Decl := ⟨.int, []⟩
def m_duplicate_EMB1 : Decl := ⟨.int, []⟩
def m_duplicate_EMB2 : Decl := ⟨.int, []⟩
def m_duplicate_EMB3 : Decl := ⟨.int, []⟩
def m_duplicate_TileBar0 : Decl := ⟨.int, []⟩
def m_duplicate_TileBar1 : Decl := ⟨.int, []⟩
def m_duplicate_TileBar2 : Decl := ⟨.int, []⟩

/-! ## Grid tables (lines 320-323) -/

def NUMSAMPLINGS : Nat := 7
def NUMETABINS : List Nat := [16, 128, 16, 8, 4, 4, 2]
def NUMPHIBINS : List Nat := [4, 4, 16, 16, 4, 4, 4]
def SAMPLINGNAMES : List String :=
  ["PSB", "EMB1", "EMB2", "EMB3", "TileBar0", "TileBar1", "TileBar2"]

/-- The image array member named after a sampling: `m_` followed by the
sampling name. -/
def imageDecl (name : String) : Option Decl :=
  if name = "PSB" then some m_PSB
  else if name = "EMB1" then some m_EMB1
  else if name = "EMB2" then some m_EMB2
  else if name = "EMB3" then some m_EMB3
  else if name = "TileBar0" then some m_TileBar0
  else if name = "TileBar1" then some m_TileBar1
  else if name = "TileBar2" then some m_TileBar2
  else none

/-- The duplicate member named after a sampling: `m_duplicate_` followed by the
sampling name. -/
def duplicateDecl (name : String) : Option Decl :=
  if name = "PSB" then some m_duplicate_PSB
  else if name = "EMB1" then some m_duplicate_EMB1
  else if name = "EMB2" then some m_duplicate_EMB2
  else if name = "EMB3" then some m_duplicate_EMB3
  else if name = "TileBar0" then some m_duplicate_TileBar0
  else if name = "TileBar1" then some m_duplicate_TileBar1
  else if name = "TileBar2" then some m_duplicate_TileBar2
  else none

/-- The `(rows, cols)` pair of the grid tables at sampling index `s`. -/
def gridShape (s : Nat) : Option (Nat × Nat) := do
  let rows ← NUMETABINS[s]?
  let cols ← NUMPHIBINS[s]?
  pure (rows, cols)

/-- Number of bins of sampling `s`: `NUMETABINS[s] * NUMPHIBINS[s]`. -/
def numBins (s : Nat) : Option Nat := do
  let rows ← NUMETABINS[s]?
  let cols ← NUMPHIBINS[s]?
  pure (rows * cols)

/-! ## Batching properties (lines 337-340) -/

/-- A configurable property: its name, its default value and its description. -/
structure Property (α : Type) where
  name : String
  default : α
  doc : String

/-- Value of a property when the configuration does not override it. -/
def Property.value {α : Type} (p : Property α) (override : Option α) : α :=
  override.getD p.default

def m_doBatches : Property Bool := ⟨"DoBatches", false, "Processing events by batches"⟩
def m_numberOfBatches : Property Int := ⟨"NumberOfBatches", 1, "No. of batches to be passed"⟩
def m_sizeOfBatch : Property Int := ⟨"SizeOfBatch", 1, "No. of elements/example in a batch"⟩

/-! ## Input tensor sizes (lines 352-354)

Each initialiser is a product written out factor by factor; the factors are
kept in source order and the member is their product as a `size_t`. -/

def input_tensor_size_tiles_factors : List Nat := [1, 4, 4, 3]
def input_tensor_size_EMB23_factors : List Nat := [1, 16, 16, 2]
def input_tensor_size_EMB1_factors : List Nat := [1, 128, 4, 1]

def input_tensor_size_tiles : Nat := input_tensor_size_tiles_factors.prod % 2 ^ 64
def input_tensor_size_EMB23 : Nat := input_tensor_size_EMB23_factors.prod % 2 ^ 64
def input_tensor_size_EMB1 : Nat := input_tensor_size_EMB1_factors.prod % 2 ^ 64

/-! ## Geometry Binner

The binning code is not part of `MLTreeMaker.h`; it is modelled from section 4.2
of the specification over exact rational arithmetic. The inputs are the angular
differences `dEta`, `dPhi` to the cluster reference direction, the second one
already wrapped. -/

/-- Modelled from the spec: the fixed angular window (0.4 in eta and in phi) of
the missing Grid Definition accessor. -/
def window : ℚ := 2 / 5

/-- Modelled from the spec: one coordinate of the missing Geometry Binner. A
difference `d` with `|d| > window / 2` is out of window; otherwise `d` is rescaled
linearly from `[-window/2, window/2]` to `[0, nbins)`, floored, and a value on the
upper boundary is clamped to the last valid bin. -/
def binCoordinate (nbins : Nat) (d : ℚ) : Option Int :=
  if |d| > window / 2 then none
  else some (min ⌊(d + window / 2) / window * (nbins : ℚ)⌋ ((nbins : Int) - 1))

/-- Modelled from the spec: the missing Geometry Binner, returning the
`(row, col)` bin of a cell in sampling `s`, or `none` when the cell is out of
window (or `s` is not a sampling index). -/
def geometryBinner (s : Nat) (dEta dPhi : ℚ) : Option (Int × Int) := do
  let rows ← NUMETABINS[s]?
  let cols ← NUMPHIBINS[s]?
  let row ← binCoordinate rows dEta
  let col ← binCoordinate cols dPhi
  pure (row, col)

/-! ## Tensor Packer

The packing code is not part of `MLTreeMaker.h`; it is modelled from section 4.5
of the specification, over the model inputs and buffers that the header declares. -/

/-- The three model inputs of one cluster, with the shapes of `m_Tiles`,
`m_EMB23` and `m_EMB1_expand`. -/
structure ClusterImages where
  m_Tiles : Fin 4 → Fin 4 → Fin 3 → ℚ
  m_EMB23 : Fin 16 → Fin 16 → Fin 2 → ℚ
  m_EMB1_expand : Fin 128 → Fin 4 → Fin 1 → ℚ

/-- The all-zero images of a cluster without cells. -/
def zeroImages : ClusterImages := ⟨fun _ _ _ => 0, fun _ _ _ => 0, fun _ _ _ => 0⟩

/-- The three input buffers handed to the inference engine. -/
structure InputBuffers where
  input_tensor_values_tiles_ : List ℚ
  input_tensor_values_EMB23_ : List ℚ
  input_tensor_values_EMB1_ : List ℚ

/-- Modelled from the spec: row-major flattening of a three-dimensional array, the
layout step of the missing Tensor Packer. -/
def flattenImage {a b c : Nat} (img : Fin a → Fin b → Fin c → ℚ) : List ℚ :=
  (List.finRange a).flatMap fun i =>
    (List.finRange b).flatMap fun j =>
      (List.finRange c).map fun k => img i j k

/-- Modelled from the spec: accumulation of the flattened images of the clusters
of a batch, in input order (missing Tensor Packer). -/
def accumulate (image : ClusterImages → List ℚ) (clusters : List ClusterImages) : List ℚ :=
  clusters.flatMap image

/-- Modelled from the spec: the size check of the missing Tensor Packer. Packing
`n` examples fails unless the accumulated elements number exactly `n` times the
declared per-example size. -/
def packBuffer (n perExample : Nat) (acc : List ℚ) : Except String (List ℚ) :=
  if acc.length = n * perExample then .ok acc
  else .error "accumulated elements do not match the declared tensor size"

/-- Modelled from the spec: packing of the three accumulated buffers of a batch of
`n` examples against the three declared input tensor sizes (missing Tensor
Packer). -/
def packBuffers (n : Nat) (tiles emb23 emb1 : List ℚ) : Except String InputBuffers := do
  let t ← packBuffer n input_tensor_size_tiles tiles
  let e23 ← packBuffer n input_tensor_size_EMB23 emb23
  let e1 ← packBuffer n input_tensor_size_EMB1 emb1
  pure ⟨t, e23, e1⟩

/-- Modelled from the spec: batch-mode packing of the clusters accumulated for a
batch of `n` examples (missing Tensor Packer). -/
def packBatch (n : Nat) (clusters : List ClusterImages) : Except String InputBuffers :=
  packBuffers n
    (accumulate (fun c => flattenImage c.m_Tiles) clusters)
    (accumulate (fun c => flattenImage c.m_EMB23) clusters)
    (accumulate (fun c => flattenImage c.m_EMB1_expand) clusters)


/-! ## Theorems on the declared state -/

/-- C1: `NUMSAMPLINGS` is 7 and, for every sampling index `s` below 7, the pair
`(NUMETABINS[s], NUMPHIBINS[s])` is the `s`-th entry of
(16,4), (128,4), (16,16), (8,16), (4,4), (4,4), (2,4), with `SAMPLINGNAMES[s]`
being PSB, EMB1, EMB2, EMB3, TileBar0, TileBar1, TileBar2 in that order. -/
theorem grid_definition :
    NUMSAMPLINGS = 7 ∧
    ∀ s : Fin NUMSAMPLINGS,
      gridShape s = [(16, 4), (128, 4), (16, 16), (8, 16), (4, 4), (4, 4), (2, 4)][s.val]? ∧
      SAMPLINGNAMES[s.val]? =
        ["PSB", "EMB1", "EMB2", "EMB3", "TileBar0", "TileBar1", "TileBar2"][s.val]? ∧
      (gridShape s).isSome = true ∧ (SAMPLINGNAMES[s.val]?).isSome = true := by
  refine ⟨rfl, ?_⟩
  intro s
  fin_cases s <;> refine ⟨rfl, rfl, rfl, rfl⟩

/-- C2 (as stated, refuted): EMB2 (index 2) and EMB3 (index 3) do not have the
same `(rows, cols)` in the grid tables: EMB2 is (16,16) and EMB3 is (8,16), so it
is false that both share the spatial shape of `m_EMB23`. -/
theorem emb23_shapes_not_identical :
    ¬ (gridShape 2 = gridShape 3 ∧
        ∃ rows cols, gridShape 2 = some (rows, cols) ∧ gridShape 3 = some (rows, cols) ∧
          m_EMB23.dims = [rows, cols, 2]) := by
  intro h
  exact absurd h.1 (by decide)

/-- C2 (amended): EMB2 (index 2) has `(rows, cols) = (16, 16)` in the grid tables and
in its array `m_EMB2`, which is the spatial shape of `m_EMB23`, whose channel axis
has size exactly 2; EMB3 (index 3) has the same number of columns and half the
rows, `(8, 16)`, in the tables and in its array `m_EMB3`. -/
theorem emb23_shape :
    ∃ rows cols,
      gridShape 2 = some (rows, cols) ∧ m_EMB2.dims = [rows, cols] ∧
      m_EMB23.dims = [rows, cols, 2] ∧ (rows, cols) = (16, 16) ∧
      gridShape 3 = some (rows / 2, cols) ∧ m_EMB3.dims = [rows / 2, cols] ∧
      gridShape 3 = some (8, 16) ∧
      SAMPLINGNAMES[2]? = some "EMB2" ∧ SAMPLINGNAMES[3]? = some "EMB3" :=
  ⟨16, 16, rfl, rfl, rfl, rfl, rfl, rfl, rfl, rfl, rfl⟩

/-- C3 (as stated, refuted): the three tile samplings (indices 4, 5, 6) do not all
have the same `(rows, cols)` in the grid tables: TileBar2 is (2,4) while TileBar0
and TileBar1 are (4,4), so TileBar2 does not have the spatial shape of `m_Tiles`. -/
theorem tiles_shapes_not_identical :
    ¬ (gridShape 4 = gridShape 5 ∧ gridShape 5 = gridShape 6 ∧
        ∃ rows cols, gridShape 4 = some (rows, cols) ∧ gridShape 6 = some (rows, cols) ∧
          m_Tiles.dims = [rows, cols, 3]) := by
  intro h
  exact absurd h.2.1 (by decide)

/-- C3 (amended): TileBar0 and TileBar1 (indices 4, 5) have the same
`(rows, cols) = (4, 4)` in the grid tables and in their arrays, which is the
spatial shape of `m_Tiles`, whose channel axis has size exactly 3; TileBar2
(index 6) has the same number of columns and half the rows, `(2, 4)`, in the tables
and in its array `m_TileBar2`. -/
theorem tiles_shape :
    ∃ rows cols,
      gridShape 4 = some (rows, cols) ∧ gridShape 5 = some (rows, cols) ∧
      m_TileBar0.dims = [rows, cols] ∧ m_TileBar1.dims = [rows, cols] ∧
      m_Tiles.dims = [rows, cols, 3] ∧ (rows, cols) = (4, 4) ∧
      gridShape 6 = some (rows / 2, cols) ∧ m_TileBar2.dims = [rows / 2, cols] ∧
      gridShape 6 = some (2, 4) ∧
      SAMPLINGNAMES[4]? = some "TileBar0" ∧ SAMPLINGNAMES[5]? = some "TileBar1" ∧
      SAMPLINGNAMES[6]? = some "TileBar2" :=
  ⟨4, 4, rfl, rfl, rfl, rfl, rfl, rfl, rfl, rfl, rfl, rfl, rfl, rfl⟩

/-- C4: each declared input tensor size is batch size 1 times the product of the
dimensions of the combined image it carries: `input_tensor_size_tiles` is
`1*4*4*3 = 48`, the element count of `m_Tiles`; `input_tensor_size_EMB23` is
`1*16*16*2 = 512`, the element count of `m_EMB23`; `input_tensor_size_EMB1` is
`1*128*4*1 = 512`, the element count of `m_EMB1_expand`. -/
theorem per_example_sizes :
    (input_tensor_size_tiles_factors = 1 :: m_Tiles.dims ∧
      input_tensor_size_tiles = 1 * m_Tiles.numElements ∧
      input_tensor_size_tiles = 48 ∧ m_Tiles.numElements = 48) ∧
    (input_tensor_size_EMB23_factors = 1 :: m_EMB23.dims ∧
      input_tensor_size_EMB23 = 1 * m_EMB23.numElements ∧
      input_tensor_size_EMB23 = 512 ∧ m_EMB23.numElements = 512) ∧
    (input_tensor_size_EMB1_factors = 1 :: m_EMB1_expand.dims ∧
      input_tensor_size_EMB1 = 1 * m_EMB1_expand.numElements ∧
      input_tensor_size_EMB1 = 512 ∧ m_EMB1_expand.numElements = 512) := by
  refine ⟨⟨rfl, ?_, ?_, ?_⟩, ⟨rfl, ?_, ?_, ?_⟩, ⟨rfl, ?_, ?_, ?_⟩⟩ <;> decide

/-- C7 (as stated, refuted): it is false that every sampling has a duplicate
member of the same `(rows, cols)` shape as its energy array; already for PSB the
duplicate member has no dimension while the energy array is 16 x 4. -/
theorem duplicate_not_per_bin :
    ¬ (∀ s : Fin NUMSAMPLINGS, ∃ name img dup,
        SAMPLINGNAMES[s.val]? = some name ∧ imageDecl name = some img ∧
        duplicateDecl name = some dup ∧ dup.dims = img.dims ∧
        dup.numElements = img.numElements) := by
  intro h
  obtain ⟨name, img, dup, hn, hi, hd, hdims, -⟩ := h ⟨0, by decide⟩
  have hname : name = "PSB" := by
    have h0 : SAMPLINGNAMES[(0 : Nat)]? = some "PSB" := rfl
    have h1 : SAMPLINGNAMES[(0 : Nat)]? = some name := hn
    rw [h0] at h1
    exact (Option.some.inj h1).symm
  subst hname
  have himg : img = m_PSB := (Option.some.inj hi).symm
  have hdup : dup = m_duplicate_PSB := (Option.some.inj hd).symm
  subst himg hdup
  exact absurd hdims (by decide)

/-- C7 (amended): for every one of the 7 samplings the state holds, next to the
sampling's energy array of shape `(NUMETABINS[s], NUMPHIBINS[s])`, a single
integer duplicate counter: a scalar `int`, one per sampling and not one per bin. -/
theorem duplicate_counter_per_sampling :
    ∀ s : Fin NUMSAMPLINGS, ∃ name img dup rows cols,
      SAMPLINGNAMES[s.val]? = some name ∧ imageDecl name = some img ∧
      duplicateDecl name = some dup ∧ gridShape s = some (rows, cols) ∧
      img = ⟨.float, [rows, cols]⟩ ∧ dup = ⟨.int, []⟩ ∧
      dup.numElements = 1 ∧ 1 < img.numElements := by
  intro s
  fin_cases s
  · exact ⟨"PSB", m_PSB, m_duplicate_PSB, 16, 4, rfl, rfl, rfl, rfl, rfl, rfl, rfl, by decide⟩
  · exact ⟨"EMB1", m_EMB1, m_duplicate_EMB1, 128, 4, rfl, rfl, rfl, rfl, rfl, rfl, rfl,
      by decide⟩
  · exact ⟨"EMB2", m_EMB2, m_duplicate_EMB2, 16, 16, rfl, rfl, rfl, rfl, rfl, rfl, rfl,
      by decide⟩
  · exact ⟨"EMB3", m_EMB3, m_duplicate_EMB3, 8, 16, rfl, rfl, rfl, rfl, rfl, rfl, rfl,
      by decide⟩
  · exact ⟨"TileBar0", m_TileBar0, m_duplicate_TileBar0, 4, 4, rfl, rfl, rfl, rfl, rfl, rfl,
      rfl, by decide⟩
  · exact ⟨"TileBar1", m_TileBar1, m_duplicate_TileBar1, 4, 4, rfl, rfl, rfl, rfl, rfl, rfl,
      rfl, by decide⟩
  · exact ⟨"TileBar2", m_TileBar2, m_duplicate_TileBar2, 2, 4, rfl, rfl, rfl, rfl, rfl, rfl,
      rfl, by decide⟩

/-- C8: EMB1 (index 1) has 512 bins, strictly more than every other sampling, and
`m_EMB1_expand` has the rows and cols of `m_EMB1` (128 x 4) followed by one
channel axis of size exactly 1, hence the same element count. -/
theorem emb1_highest_granularity :
    SAMPLINGNAMES[1]? = some "EMB1" ∧ numBins 1 = some 512 ∧
    (∀ s : Fin NUMSAMPLINGS, ∃ n, numBins s = some n ∧
      ((s.val = 1 ∧ n = 512) ∨ (s.val ≠ 1 ∧ n < 512))) ∧
    m_EMB1.dims = [128, 4] ∧ m_EMB1_expand.dims = m_EMB1.dims ++ [1] ∧
    m_EMB1_expand.numElements = m_EMB1.numElements ∧ m_EMB1.numElements = 512 := by
  refine ⟨rfl, rfl, ?_, rfl, rfl, by decide, by decide⟩
  intro s
  fin_cases s
  · exact ⟨64, rfl, Or.inr ⟨by decide, by decide⟩⟩
  · exact ⟨512, rfl, Or.inl ⟨rfl, rfl⟩⟩
  · exact ⟨256, rfl, Or.inr ⟨by decide, by decide⟩⟩
  · exact ⟨128, rfl, Or.inr ⟨by decide, by decide⟩⟩
  · exact ⟨16, rfl, Or.inr ⟨by decide, by decide⟩⟩
  · exact ⟨16, rfl, Or.inr ⟨by decide, by decide⟩⟩
  · exact ⟨8, rfl, Or.inr ⟨by decide, by decide⟩⟩

/-- Subscripts `[row, col]` are in bounds for a two-dimensional member exactly
when each is below its extent. -/
theorem validIndex_two (t : ElemType) (rows cols row col : Nat) :
    Decl.validIndex ⟨t, [rows, cols]⟩ [row, col] = true ↔ row < rows ∧ col < cols := by
  simp [Decl.validIndex]

/-- C9: for every sampling index `s` below 7, the image array declared for
`SAMPLINGNAMES[s]` has first dimension `NUMETABINS[s]` and second dimension
`NUMPHIBINS[s]`, so `(row, col)` is a valid index into that array exactly when
`row < NUMETABINS[s]` and `col < NUMPHIBINS[s]`. -/
theorem storage_matches_grid :
    ∀ s : Fin NUMSAMPLINGS, ∃ name img rows cols,
      SAMPLINGNAMES[s.val]? = some name ∧ imageDecl name = some img ∧
      NUMETABINS[s.val]? = some rows ∧ NUMPHIBINS[s.val]? = some cols ∧
      img.dims = [rows, cols] ∧
      ∀ row col : Nat, img.validIndex [row, col] = true ↔ row < rows ∧ col < cols := by
  intro s
  fin_cases s
  · exact ⟨"PSB", m_PSB, 16, 4, rfl, rfl, rfl, rfl, rfl, validIndex_two _ _ _⟩
  · exact ⟨"EMB1", m_EMB1, 128, 4, rfl, rfl, rfl, rfl, rfl, validIndex_two _ _ _⟩
  · exact ⟨"EMB2", m_EMB2, 16, 16, rfl, rfl, rfl, rfl, rfl, validIndex_two _ _ _⟩
  · exact ⟨"EMB3", m_EMB3, 8, 16, rfl, rfl, rfl, rfl, rfl, validIndex_two _ _ _⟩
  · exact ⟨"TileBar0", m_TileBar0, 4, 4, rfl, rfl, rfl, rfl, rfl, validIndex_two _ _ _⟩
  · exact ⟨"TileBar1", m_TileBar1, 4, 4, rfl, rfl, rfl, rfl, rfl, validIndex_two _ _ _⟩
  · exact ⟨"TileBar2", m_TileBar2, 2, 4, rfl, rfl, rfl, rfl, rfl, validIndex_two _ _ _⟩

/-- C10: with no property overridden, `DoBatches` is false, `NumberOfBatches` is 1
and `SizeOfBatch` is 1, and the leading (batch) factor of each of the three
declared input tensor sizes is 1. -/
theorem default_single_mode :
    (m_doBatches.name = "DoBatches" ∧ m_doBatches.value none = false) ∧
    (m_numberOfBatches.name = "NumberOfBatches" ∧ m_numberOfBatches.value none = 1) ∧
    (m_sizeOfBatch.name = "SizeOfBatch" ∧ m_sizeOfBatch.value none = 1) ∧
    input_tensor_size_tiles_factors.head? = some 1 ∧
    input_tensor_size_EMB23_factors.head? = some 1 ∧
    input_tensor_size_EMB1_factors.head? = some 1 ∧
    input_tensor_size_tiles = 1 * input_tensor_size_tiles_factors.tail.prod ∧
    input_tensor_size_EMB23 = 1 * input_tensor_size_EMB23_factors.tail.prod ∧
    input_tensor_size_EMB1 = 1 * input_tensor_size_EMB1_factors.tail.prod := by
  refine ⟨⟨rfl, rfl⟩, ⟨rfl, rfl⟩, ⟨rfl, rfl⟩, rfl, rfl, rfl, ?_, ?_, ?_⟩ <;> decide

/-! ## Theorems on the Geometry Binner -/

/-- One coordinate inside the window is binned, the bin lies in `[0, nbins)`, the
upper boundary gives the last bin and the lower boundary gives bin 0. -/
theorem binCoordinate_in_range (nbins : Nat) (hn : 0 < nbins) (d : ℚ) (hd : |d| ≤ 1 / 5) :
    ∃ r, binCoordinate nbins d = some r ∧ 0 ≤ r ∧ r < (nbins : Int) ∧
      (d = 1 / 5 → r = (nbins : Int) - 1) ∧ (d = -(1 / 5) → r = 0) := by
  have hw : window / 2 = 1 / 5 := by norm_num [window]
  obtain ⟨hlo, hhi⟩ := abs_le.mp hd
  have hx : 0 ≤ (d + window / 2) / window * (nbins : ℚ) := by
    have h1 : 0 ≤ d + window / 2 := by rw [hw]; linarith
    have h2 : (0 : ℚ) ≤ window := by norm_num [window]
    exact mul_nonneg (div_nonneg h1 h2) (Nat.cast_nonneg nbins)
  have hn1 : (0 : Int) ≤ (nbins : Int) - 1 := by omega
  refine ⟨min ⌊(d + window / 2) / window * (nbins : ℚ)⌋ ((nbins : Int) - 1), ?_, ?_, ?_, ?_, ?_⟩
  · unfold binCoordinate
    rw [if_neg]
    rw [hw]
    exact not_lt.mpr hd
  · exact le_min (Int.floor_nonneg.mpr hx) hn1
  · have := min_le_right ⌊(d + window / 2) / window * (nbins : ℚ)⌋ ((nbins : Int) - 1)
    omega
  · intro hd1
    have hval : (d + window / 2) / window * (nbins : ℚ) = ((nbins : Int) : ℚ) := by
      rw [hd1]
      norm_num [window]
    rw [hval, Int.floor_intCast]
    exact min_eq_right (by omega)
  · intro hd0
    have hval : (d + window / 2) / window * (nbins : ℚ) = ((0 : Int) : ℚ) := by
      rw [hd0]
      norm_num [window]
    rw [hval, Int.floor_intCast]
    exact min_eq_left hn1

/-- Every sampling index below 7 has a table entry with at least one row and one
column. -/
theorem gridShape_pos (s : Fin NUMSAMPLINGS) :
    ∃ rows cols, NUMETABINS[s.val]? = some rows ∧ NUMPHIBINS[s.val]? = some cols ∧
      0 < rows ∧ 0 < cols := by
  fin_cases s
  · exact ⟨16, 4, rfl, rfl, by decide, by decide⟩
  · exact ⟨128, 4, rfl, rfl, by decide, by decide⟩
  · exact ⟨16, 16, rfl, rfl, by decide, by decide⟩
  · exact ⟨8, 16, rfl, rfl, by decide, by decide⟩
  · exact ⟨4, 4, rfl, rfl, by decide, by decide⟩
  · exact ⟨4, 4, rfl, rfl, by decide, by decide⟩
  · exact ⟨2, 4, rfl, rfl, by decide, by decide⟩

/-- C5: for every sampling and every position inside the window (`|dEta| <= 0.2`
and `|dPhi| <= 0.2`, boundaries included), the Geometry Binner produces a bin
`(row, col)` with `0 <= row < NUMETABINS[s]` and `0 <= col < NUMPHIBINS[s]`; a
position exactly on the upper boundary yields the last valid index. -/
theorem geometryBinner_in_range (s : Fin NUMSAMPLINGS) (dEta dPhi : ℚ)
    (hEta : |dEta| ≤ 1 / 5) (hPhi : |dPhi| ≤ 1 / 5) :
    ∃ rows cols row col,
      NUMETABINS[s.val]? = some rows ∧ NUMPHIBINS[s.val]? = some cols ∧
      geometryBinner s dEta dPhi = some (row, col) ∧
      0 ≤ row ∧ row < (rows : Int) ∧ 0 ≤ col ∧ col < (cols : Int) ∧
      (dEta = 1 / 5 → row = (rows : Int) - 1) ∧ (dPhi = 1 / 5 → col = (cols : Int) - 1) := by
  obtain ⟨rows, cols, hr, hc, hrpos, hcpos⟩ := gridShape_pos s
  obtain ⟨row, hrow, h0, h1, h2, -⟩ := binCoordinate_in_range rows hrpos dEta hEta
  obtain ⟨col, hcol, k0, k1, k2, -⟩ := binCoordinate_in_range cols hcpos dPhi hPhi
  refine ⟨rows, cols, row, col, hr, hc, ?_, h0, h1, k0, k1, h2, k2⟩
  simp only [geometryBinner, hr, hc, hrow, hcol, Option.bind_eq_bind, Option.some_bind,
    Option.pure_def]

/-- C5 at EMB1 with `dEta` on the upper boundary and `dPhi` on the lower boundary. -/
theorem geometryBinner_in_range_witness :
    |(1 / 5 : ℚ)| ≤ 1 / 5 ∧ |(-(1 / 5) : ℚ)| ≤ 1 / 5 ∧
    ∃ (rows cols : Nat) (row col : Int),
      NUMETABINS[(1 : Nat)]? = some rows ∧ NUMPHIBINS[(1 : Nat)]? = some cols ∧
      geometryBinner 1 (1 / 5) (-(1 / 5)) = some (row, col) ∧
      0 ≤ row ∧ row < (rows : Int) ∧ 0 ≤ col ∧ col < (cols : Int) ∧
      ((1 / 5 : ℚ) = 1 / 5 → row = (rows : Int) - 1) ∧
      ((-(1 / 5) : ℚ) = 1 / 5 → col = (cols : Int) - 1) :=
  ⟨by simp [abs_of_pos], by simp [abs_of_pos],
    geometryBinner_in_range ⟨1, by decide⟩ (1 / 5) (-(1 / 5))
      (by simp [abs_of_pos]) (by simp [abs_of_pos])⟩

/-! ## Theorems on the Tensor Packer -/

/-- A flattened image has as many elements as the product of its dimensions. -/
theorem flattenImage_length {a b c : Nat} (img : Fin a → Fin b → Fin c → ℚ) :
    (flattenImage img).length = a * b * c := by
  have inner : ∀ (n k : Nat) (f : Fin n → List ℚ), (∀ i, (f i).length = k) →
      ((List.finRange n).flatMap f).length = n * k := by
    intro n k f hf
    have hmap : List.map (List.length ∘ f) (List.finRange n) =
        List.map (fun _ => k) (List.finRange n) :=
      List.map_congr_left (fun i _ => hf i)
    rw [List.length_flatMap, hmap, List.map_const', List.sum_replicate, List.length_finRange,
      smul_eq_mul]
  unfold flattenImage
  rw [inner a (b * c) _ (fun i => inner b c _ (fun j => by simp)), Nat.mul_assoc]

/-- Accumulating images of `k` elements each over a list of clusters gives
`k` elements per cluster. -/
theorem accumulate_length (image : ClusterImages → List ℚ) (k : Nat)
    (hk : ∀ c, (image c).length = k) (clusters : List ClusterImages) :
    (accumulate image clusters).length = clusters.length * k := by
  induction clusters with
  | nil => simp [accumulate]
  | cons c cs ih =>
    have hstep : accumulate image (c :: cs) = image c ++ accumulate image cs := by
      simp [accumulate]
    rw [hstep, List.length_append, ih, hk, List.length_cons]
    ring

/-- The size check accepts a buffer exactly when it has `n * perExample` elements,
and then returns it unchanged. -/
theorem packBuffer_ok (n perExample : Nat) (acc : List ℚ) (h : acc.length = n * perExample) :
    packBuffer n perExample acc = .ok acc := by
  simp [packBuffer, h]

/-- The size check rejects a buffer whose length is not `n * perExample`. -/
theorem packBuffer_error (n perExample : Nat) (acc : List ℚ) (h : acc.length ≠ n * perExample) :
    ∃ e, packBuffer n perExample acc = .error e := by
  simp [packBuffer, h]

/-- Packing three buffers fails as soon as one of them has the wrong length. -/
theorem packBuffers_error (n : Nat) (tiles emb23 emb1 : List ℚ)
    (h : tiles.length ≠ n * 48 ∨ emb23.length ≠ n * 512 ∨ emb1.length ≠ n * 512) :
    ∃ e, packBuffers n tiles emb23 emb1 = .error e := by
  have s1 : input_tensor_size_tiles = 48 := by decide
  have s2 : input_tensor_size_EMB23 = 512 := by decide
  have s3 : input_tensor_size_EMB1 = 512 := by decide
  unfold packBuffers
  rw [s1, s2, s3]
  by_cases h1 : tiles.length = n * 48
  · by_cases h2 : emb23.length = n * 512
    · have h3 : emb1.length ≠ n * 512 := by tauto
      obtain ⟨e, he⟩ := packBuffer_error n 512 emb1 h3
      refine ⟨e, ?_⟩
      rw [packBuffer_ok n 48 tiles h1, packBuffer_ok n 512 emb23 h2, he]
      rfl
    · obtain ⟨e, he⟩ := packBuffer_error n 512 emb23 h2
      refine ⟨e, ?_⟩
      rw [packBuffer_ok n 48 tiles h1, he]
      rfl
  · obtain ⟨e, he⟩ := packBuffer_error n 48 tiles h1
    refine ⟨e, ?_⟩
    rw [he]
    rfl

/-- C6: for every `N >= 1`, packing `N` clusters in batch mode yields, for each of
the three input tensors, a buffer of exactly `N` times the per-example size
(`N*48` for tiles, `N*512` for EMB23, `N*512` for EMB1); and packing fails
whenever the number of accumulated elements of a buffer differs from that size, in
particular when the number of clusters is not `N`. -/
theorem batch_packing (N : Nat) (_hN : 1 ≤ N)
    (clusters : List ClusterImages) (hlen : clusters.length = N)
    (tiles emb23 emb1 : List ℚ) (others : List ClusterImages) :
    (∃ b, packBatch N clusters = .ok b ∧
      b.input_tensor_values_tiles_.length = N * input_tensor_size_tiles ∧
      b.input_tensor_values_EMB23_.length = N * input_tensor_size_EMB23 ∧
      b.input_tensor_values_EMB1_.length = N * input_tensor_size_EMB1 ∧
      b.input_tensor_values_tiles_.length = N * 48 ∧
      b.input_tensor_values_EMB23_.length = N * 512 ∧
      b.input_tensor_values_EMB1_.length = N * 512) ∧
    ((tiles.length ≠ N * 48 ∨ emb23.length ≠ N * 512 ∨ emb1.length ≠ N * 512) →
      ∃ e, packBuffers N tiles emb23 emb1 = .error e) ∧
    (others.length ≠ N → ∃ e, packBatch N others = .error e) := by
  have s1 : input_tensor_size_tiles = 48 := by decide
  have s2 : input_tensor_size_EMB23 = 512 := by decide
  have s3 : input_tensor_size_EMB1 = 512 := by decide
  have l1 : ∀ cs : List ClusterImages,
      (accumulate (fun c => flattenImage c.m_Tiles) cs).length = cs.length * 48 :=
    accumulate_length _ 48 (fun c => flattenImage_length c.m_Tiles)
  have l2 : ∀ cs : List ClusterImages,
      (accumulate (fun c => flattenImage c.m_EMB23) cs).length = cs.length * 512 :=
    accumulate_length _ 512 (fun c => flattenImage_length c.m_EMB23)
  have l3 : ∀ cs : List ClusterImages,
      (accumulate (fun c => flattenImage c.m_EMB1_expand) cs).length = cs.length * 512 :=
    accumulate_length _ 512 (fun c => flattenImage_length c.m_EMB1_expand)
  refine ⟨?_, packBuffers_error N tiles emb23 emb1, ?_⟩
  · have e1 := l1 clusters
    have e2 := l2 clusters
    have e3 := l3 clusters
    rw [hlen] at e1 e2 e3
    refine ⟨⟨_, _, _⟩, ?_, ?_, ?_, ?_, e1, e2, e3⟩
    · unfold packBatch packBuffers
      rw [s1, s2, s3, packBuffer_ok N 48 _ e1, packBuffer_ok N 512 _ e2,
        packBuffer_ok N 512 _ e3]
      rfl
    · rw [s1]; exact e1
    · rw [s2]; exact e2
    · rw [s3]; exact e3
  · intro hne
    apply packBuffers_error
    left
    rw [l1 others]
    intro h
    exact hne (Nat.eq_of_mul_eq_mul_right (by decide) h)

/-- C6 at `N = 2`: two all-zero clusters pack, empty buffers are rejected and a
single cluster is rejected. -/
theorem batch_packing_witness :
    1 ≤ 2 ∧ [zeroImages, zeroImages].length = 2 ∧
    (∃ b, packBatch 2 [zeroImages, zeroImages] = .ok b ∧
      b.input_tensor_values_tiles_.length = 2 * input_tensor_size_tiles ∧
      b.input_tensor_values_EMB23_.length = 2 * input_tensor_size_EMB23 ∧
      b.input_tensor_values_EMB1_.length = 2 * input_tensor_size_EMB1 ∧
      b.input_tensor_values_tiles_.length = 2 * 48 ∧
      b.input_tensor_values_EMB23_.length = 2 * 512 ∧
      b.input_tensor_values_EMB1_.length = 2 * 512) ∧
    (∃ e, packBuffers 2 [] [] [] = .error e) ∧
    (∃ e, packBatch 2 [zeroImages] = .error e) :=
  have h := batch_packing 2 (by decide) [zeroImages, zeroImages] rfl [] [] [] [zeroImages]
  ⟨by decide, rfl, h.1, h.2.1 (Or.inl (by decide)), h.2.2 (by decide)⟩

end MLTreeMaker
